import Mathlib

/-
Shallow embedding of the CloudDocs synthetic event generator and its
idempotent raw-store loader (src/ingestion/event_generator.py).

Modelling conventions:
- The process-global seeded random stream (Python `random`, seeded once in
  `EventGenerator.__init__`) is an infinite sequence `rs : Nat → Nat` together
  with a position counter; every primitive draw consumes one element.
- `uuid.uuid4()` reads the operating system's entropy source, which
  `random.seed` does not influence; it is a second, independent stream
  `es : Nat → Nat` with its own position counter.
- `random.randint a b` maps its element into `[a, b]`; `random.choice`
  indexes uniformly into a list (raising IndexError on an empty list without
  consuming an element, as CPython's `_randbelow` short-circuits on 0);
  `random.choices(pop, weights)` performs one weighted categorical draw;
  `random.random()` yields a value in `[0, 1)`, modelled as a rational with
  a fixed granularity, which is all the branch `random.random() < 0.1` needs.
- Python exceptions are `Except`; an error value carries the generator state
  at raise time, because the global stream position and the session map
  survive an exception.
-/

namespace CloudDocs

/-- Lowercase hexadecimal digit, as used by Python `uuid.UUID.hex`. -/
def hexChar (n : ℕ) : Char :=
  if n < 10 then Char.ofNat (48 + n) else Char.ofNat (87 + n)

/-- Hex digits of `n`, least significant first, with enough fuel for 128 bits. -/
def toHexRev : ℕ → ℕ → List Char
  | 0, _ => []
  | fuel + 1, n => if n = 0 then [] else hexChar (n % 16) :: toHexRev fuel (n / 16)

/-- The 32-character lowercase hex rendering of a 128-bit uuid value,
as returned by `uuid.uuid4().hex`. -/
def uuidHex (v : ℕ) : String :=
  let ds := (toHexRev 32 (v % 2 ^ 128)).reverse
  String.mk (List.replicate (32 - ds.length) '0' ++ ds)

/-- Left-pad the decimal rendering of `n` with zeros to width `w`. -/
def padNum (w n : ℕ) : String :=
  let s := toString n
  String.mk (List.replicate (w - s.length) '0' ++ s.data)

/-- A Python `datetime.datetime` value: calendar fields, time fields,
microseconds, and an optional UTC offset in minutes (`none` = naive). -/
structure PyDatetime where
  year : ℕ
  month : ℕ
  day : ℕ
  hour : ℕ
  minute : ℕ
  second : ℕ
  microsecond : ℕ
  tzOffsetMinutes : Option Int
deriving DecidableEq

/-- Python `datetime.replace(hour=h, minute=mi, second=s)`: all other fields,
including `microsecond` and the timezone, are carried through unchanged. -/
def pyReplace (d : PyDatetime) (h mi s : ℕ) : PyDatetime :=
  { d with hour := h, minute := mi, second := s }

/-- Python `datetime.isoformat()`: `YYYY-MM-DDTHH:MM:SS`, then `.ffffff`
only when the microsecond field is nonzero, then `+HH:MM`/`-HH:MM` only for
an aware datetime. -/
def pyIsoformat (d : PyDatetime) : String :=
  padNum 4 d.year ++ "-" ++ padNum 2 d.month ++ "-" ++ padNum 2 d.day ++ "T" ++
    padNum 2 d.hour ++ ":" ++ padNum 2 d.minute ++ ":" ++ padNum 2 d.second ++
    (if d.microsecond = 0 then "" else "." ++ padNum 6 d.microsecond) ++
    (match d.tzOffsetMinutes with
     | none => ""
     | some off =>
       (if off < 0 then "-" else "+") ++
         padNum 2 (off.natAbs / 60) ++ ":" ++ padNum 2 (off.natAbs % 60))

/-- A calendar date, for `datetime` values at midnight handled by `main`. -/
structure Date where
  y : ℕ
  m : ℕ
  d : ℕ
deriving DecidableEq

def isLeap (y : ℕ) : Bool :=
  (y % 4 == 0 && y % 100 != 0) || y % 400 == 0

def daysInMonth (y m : ℕ) : ℕ :=
  if m = 2 then (if isLeap y then 29 else 28)
  else if m = 4 ∨ m = 6 ∨ m = 9 ∨ m = 11 then 30
  else 31

/-- Advance a calendar date by one day (Gregorian calendar). -/
def nextDay (d : Date) : Date :=
  if d.d < daysInMonth d.y d.m then ⟨d.y, d.m, d.d + 1⟩
  else if d.m < 12 then ⟨d.y, d.m + 1, 1⟩
  else ⟨d.y + 1, 1, 1⟩

/-- Python `date + timedelta(days=k)`. -/
def addDays (d : Date) : ℕ → Date
  | 0 => d
  | k + 1 => nextDay (addDays d k)

/-- Python `datetime + timedelta(days=k)` for our dates: only the calendar
part moves, the time-of-day fields are unchanged. -/
def addDaysDT (dt : PyDatetime) (k : ℕ) : PyDatetime :=
  let d := addDays ⟨dt.year, dt.month, dt.day⟩ k
  { dt with year := d.y, month := d.m, day := d.d }

/-- Python `datetime <= datetime` on midnight datetimes: lexicographic on
(year, month, day). -/
def dateLe (a b : Date) : Bool :=
  a.y < b.y || (a.y == b.y && (a.m < b.m || (a.m == b.m && a.d ≤ b.d)))

/-- The midnight naive datetime `datetime.strptime(s, "%Y-%m-%d")` yields. -/
def dateToDT (d : Date) : PyDatetime := ⟨d.y, d.m, d.d, 0, 0, 0, 0, none⟩

/-- Python `random.randint a b` (both ends inclusive), applied to one raw
stream element `v`. -/
def pyRandint (a b v : ℕ) : ℕ := a + v % (b - a + 1)

/-- Sum of the weights of a weighted population. -/
def totalWeight {α : Type} (l : List (α × ℕ)) : ℕ := (l.map Prod.snd).sum

/-- Walk the cumulative weights: pick the first entry whose cumulative weight
exceeds the drawn point `x`. -/
def weightedPick {α : Type} : List (α × ℕ) → ℕ → Option α
  | [], _ => none
  | (a, w) :: rest, x => if x < w then some a else weightedPick rest (x - w)

/-- Python `random.choices(population, weights=w)[0]`: one weighted
categorical draw from one raw stream element `v`. The populations this is
applied to are constant and nonempty, so the default `d` is never returned;
it only totalises the function. -/
def pyChoicesD {α : Type} (l : List (α × ℕ)) (d : α) (v : ℕ) : α :=
  (weightedPick l (v % totalWeight l)).getD d

/-- Python `random.choice l` for a list statically known to be nonempty:
uniform index from one raw stream element `v`. The default `d` only
totalises the function. -/
def pyChoiceD {α : Type} (l : List α) (d : α) (v : ℕ) : α :=
  l.getD (v % l.length) d

/-- Python `random.random()`: a uniform value in `[0, 1)`, modelled as a
rational with fixed granularity from one raw stream element. -/
def pyRandom (v : ℕ) : ℚ := ((v % 1000000 : ℕ) : ℚ) / 1000000

-- ============================================================
-- Global configuration constants of the source module
-- ============================================================

def NUM_USERS : ℕ := 500

def NUM_DOCUMENTS : ℕ := 2000

def EVENTS_PER_DAY : ℕ := 10000

/-- Event type weights, in the source's dictionary order. -/
def EVENT_WEIGHTS : List (String × ℕ) :=
  [("document_edited", 35), ("document_created", 10), ("user_login", 15),
   ("feature_used", 20), ("document_shared", 8), ("user_logout", 5),
   ("subscription_started", 2), ("subscription_upgraded", 3),
   ("subscription_cancelled", 1), ("document_deleted", 1)]

def PLATFORMS : List String := ["web", "mobile", "desktop", "api"]

def PLATFORM_WEIGHTS : List ℕ := [60, 25, 10, 5]

def PLANS : List String := ["free", "pro", "enterprise"]

def PLAN_WEIGHTS : List ℕ := [70, 25, 5]

structure Feature where
  id : String
  name : String
  category : String
  premium : Bool
deriving DecidableEq

def FEATURES : List Feature :=
  [⟨"real_time_collab", "Real-time Collaboration", "collaboration", true⟩,
   ⟨"comments", "Comments", "collaboration", false⟩,
   ⟨"version_history", "Version History", "editing", true⟩,
   ⟨"export_pdf", "Export to PDF", "editing", false⟩,
   ⟨"templates", "Templates", "editing", false⟩,
   ⟨"cloud_storage", "Cloud Storage", "storage", false⟩,
   ⟨"advanced_search", "Advanced Search", "analytics", true⟩,
   ⟨"team_analytics", "Team Analytics", "analytics", true⟩]

/-- The 24 hour-of-day bucket weights of `generate_event`. -/
def HOUR_WEIGHTS : List ℕ :=
  [1, 1, 1, 1, 1, 2, 3, 5, 8, 10, 10, 9, 7, 8, 10, 10, 9, 8, 6, 5, 4, 3, 2, 1]

-- ============================================================
-- Entity pool
-- ============================================================

structure User where
  user_id : String
  email : String
  signup_date : PyDatetime
  plan : String
  activity_level : String
deriving DecidableEq

structure Document where
  document_id : String
  owner_user_id : String
  title : String
  created_at : PyDatetime
deriving DecidableEq

/-- The `base_date = datetime(2024, 1, 1)` of `_generate_users`. -/
def base_date : PyDatetime := ⟨2024, 1, 1, 0, 0, 0, 0, none⟩

/-- The loop body of `EventGenerator._generate_users`, generating users with
indices `i, i+1, ...` (`n` remaining), threading the seeded stream position
`p` and the uuid entropy position `e`. Per user the seeded draws are, in
order: signup offset `randint(0, 365)`, plan `choices(PLANS, PLAN_WEIGHTS)`,
activity level `choice(["high", "medium", "low"])`; the user id consumes one
uuid (entropy) element. -/
def genUsersFrom (rs es : ℕ → ℕ) (i n p e : ℕ) : List User × ℕ × ℕ :=
  match n with
  | 0 => ([], p, e)
  | n + 1 =>
    let u : User :=
      { user_id := "usr_" ++ (uuidHex (es e)).take 12
        email := "user" ++ toString i ++ "@example.com"
        signup_date := addDaysDT base_date (pyRandint 0 365 (rs p))
        plan := pyChoicesD (PLANS.zip PLAN_WEIGHTS) "free" (rs (p + 1))
        activity_level := pyChoiceD ["high", "medium", "low"] "high" (rs (p + 2)) }
    let rest := genUsersFrom rs es (i + 1) n (p + 3) (e + 1)
    (u :: rest.1, rest.2)

/-- The loop body of `EventGenerator._generate_documents`. Per document:
`random.choice(self.users)` (raising IndexError on an empty pool), one uuid
entropy element for the document id, and `randint(0, 30)` days added to the
owner's signup date. -/
def genDocumentsFrom (rs es : ℕ → ℕ) (users : List User) (i n p e : ℕ) :
    Except String (List Document × ℕ × ℕ) :=
  match n with
  | 0 => .ok ([], p, e)
  | n + 1 =>
    match users with
    | [] => .error "IndexError"
    | u0 :: us =>
      let owner := pyChoiceD (u0 :: us) u0 (rs p)
      let d : Document :=
        { document_id := "doc_" ++ (uuidHex (es e)).take 12
          owner_user_id := owner.user_id
          title := "Document " ++ toString i
          created_at := addDaysDT owner.signup_date (pyRandint 0 30 (rs (p + 1))) }
      match genDocumentsFrom rs es (u0 :: us) (i + 1) n (p + 2) (e + 1) with
      | .error s => .error s
      | .ok (rest, pf, ef) => .ok (d :: rest, pf, ef)

-- ============================================================
-- Session tracker
-- ============================================================

/-- Mutable state of one `EventGenerator`: position in the seeded random
stream, position in the uuid entropy stream, and the `self.sessions` dict. -/
structure GState where
  rpos : ℕ
  epos : ℕ
  sessions : List (String × String)
deriving DecidableEq

/-- Python dict lookup on the session map. -/
def dictGet : List (String × String) → String → Option String
  | [], _ => none
  | (k0, v0) :: rest, k => if k0 = k then some v0 else dictGet rest k

/-- Python dict assignment on the session map: replace in place, or append. -/
def dictSet : List (String × String) → String → String → List (String × String)
  | [], k, v => [(k, v)]
  | (k0, v0) :: rest, k, v =>
    if k0 = k then (k0, v) :: rest else (k0, v0) :: dictSet rest k v

/-- The fresh `f"ses_{uuid.uuid4().hex[:12]}"` identifier built from the uuid
entropy element at position `e`. -/
def freshSession (es : ℕ → ℕ) (e : ℕ) : String :=
  "ses_" ++ (uuidHex (es e)).take 12

/-- `EventGenerator._get_session_id`. The Python condition
`user_id not in self.sessions or random.random() < 0.1` short-circuits: the
uniform draw is consumed only when the user already has a session. -/
def get_session_id (rs es : ℕ → ℕ) (user_id : String) (st : GState) :
    String × GState :=
  match dictGet st.sessions user_id with
  | none =>
    let sid := freshSession es st.epos
    (sid, ⟨st.rpos, st.epos + 1, dictSet st.sessions user_id sid⟩)
  | some old =>
    if pyRandom (rs st.rpos) < (1 : ℚ) / 10 then
      let sid := freshSession es st.epos
      (sid, ⟨st.rpos + 1, st.epos + 1, dictSet st.sessions user_id sid⟩)
    else
      (old, ⟨st.rpos + 1, st.epos, st.sessions⟩)

-- ============================================================
-- Event synthesizer
-- ============================================================

/-- A property value: the source stores strings and integers. -/
inductive PropVal where
  | str (s : String)
  | num (n : ℕ)
deriving DecidableEq

structure EventContext where
  platform : String
  ip_address : String
  user_agent : String
deriving DecidableEq

structure Event where
  event_id : String
  event_type : String
  event_timestamp : String
  user_id : String
  session_id : String
  properties : List (String × PropVal)
  context : EventContext
deriving DecidableEq

/-- Fallback feature for the totalised `random.choice(FEATURES)`; never
returned because `FEATURES` is a nonempty constant. -/
def featDefault : Feature := ⟨"real_time_collab", "Real-time Collaboration", "collaboration", true⟩

/-- The type-specific property dispatch of `generate_event`, drawing from the
seeded stream starting at position `p`. Mirrors the if/elif chain of the
source; an empty document pool raises IndexError (from `random.choice`,
which consumes no stream element on an empty list). -/
def event_properties (rs : ℕ → ℕ) (documents : List Document)
    (event_type : String) (p : ℕ) :
    Except String (List (String × PropVal) × ℕ) :=
  if event_type ∈ ["document_edited", "document_created", "document_deleted", "document_shared"] then
    match documents with
    | [] => .error "IndexError"
    | d0 :: ds =>
      let doc := pyChoiceD (d0 :: ds) d0 (rs p)
      if event_type = "document_edited" then
        .ok ([("document_id", PropVal.str doc.document_id),
              ("edit_duration_sec", PropVal.num (pyRandint 10 3600 (rs (p + 1)))),
              ("characters_added", PropVal.num (pyRandint 0 5000 (rs (p + 2))))], p + 3)
      else
        .ok ([("document_id", PropVal.str doc.document_id)], p + 1)
  else if event_type = "feature_used" then
    let f := pyChoiceD FEATURES featDefault (rs p)
    .ok ([("feature_id", PropVal.str f.id),
          ("feature_name", PropVal.str f.name),
          ("duration_sec", PropVal.num (pyRandint 5 300 (rs (p + 1))))], p + 2)
  else if event_type ∈ ["subscription_started", "subscription_upgraded"] then
    .ok ([("plan", PropVal.str (pyChoiceD ["pro", "enterprise"] "pro" (rs p))),
          ("billing_cycle", PropVal.str (pyChoiceD ["monthly", "annual"] "monthly" (rs (p + 1))))], p + 2)
  else if event_type = "subscription_cancelled" then
    .ok ([("reason", PropVal.str (pyChoiceD
            ["too_expensive", "not_using", "competitor", "other"] "other" (rs p)))], p + 1)
  else
    .ok ([], p)

/-- `EventGenerator.generate_event`. Seeded draws, in source order: event
type (`choices`), user (`choice`, IndexError on an empty pool), platform
(`choices`), hour (`choices`), minute and second (`randint`), then inside the
event literal the session renewal draw (possibly none, see
`get_session_id`), two IP octets, and finally the type-specific property
draws. Entropy draws: the event uuid, then possibly a session uuid. An
error carries the generator state at raise time. -/
def generate_event (rs es : ℕ → ℕ) (users : List User)
    (documents : List Document) (event_date : PyDatetime) (st : GState) :
    Except (String × GState) (Event × GState) :=
  let event_type := pyChoicesD EVENT_WEIGHTS "document_edited" (rs st.rpos)
  match users with
  | [] => .error ("IndexError", ⟨st.rpos + 1, st.epos, st.sessions⟩)
  | u0 :: us =>
    let user := pyChoiceD (u0 :: us) u0 (rs (st.rpos + 1))
    let platform := pyChoicesD (PLATFORMS.zip PLATFORM_WEIGHTS) "web" (rs (st.rpos + 2))
    let hour := pyChoicesD ((List.range 24).zip HOUR_WEIGHTS) 0 (rs (st.rpos + 3))
    let minute := pyRandint 0 59 (rs (st.rpos + 4))
    let second := pyRandint 0 59 (rs (st.rpos + 5))
    let event_time := pyReplace event_date hour minute second
    let event_id := "evt_" ++ uuidHex (es st.epos)
    let sres := get_session_id rs es user.user_id ⟨st.rpos + 6, st.epos + 1, st.sessions⟩
    let st1 := sres.2
    let octet3 := pyRandint 1 255 (rs st1.rpos)
    let octet4 := pyRandint 1 255 (rs (st1.rpos + 1))
    let ctx : EventContext :=
      { platform := platform
        ip_address := "192.168." ++ toString octet3 ++ "." ++ toString octet4
        user_agent := "Mozilla/5.0 (" ++ platform ++ ")" }
    let st2 : GState := ⟨st1.rpos + 2, st1.epos, st1.sessions⟩
    match event_properties rs documents event_type st2.rpos with
    | .error s => .error (s, st2)
    | .ok (props, pend) =>
      .ok ({ event_id := event_id
             event_type := event_type
             event_timestamp := pyIsoformat event_time ++ "Z"
             user_id := user.user_id
             session_id := sres.1
             properties := props
             context := ctx }, ⟨pend, st2.epos, st2.sessions⟩)

/-- `EventGenerator.generate_day`: the materialisation of the lazy per-day
sequence, exactly `n` calls to `generate_event` threading the state. -/
def generate_day (rs es : ℕ → ℕ) (users : List User)
    (documents : List Document) (event_date : PyDatetime) (n : ℕ)
    (st : GState) : Except (String × GState) (List Event × GState) :=
  match n with
  | 0 => .ok ([], st)
  | n + 1 =>
    match generate_event rs es users documents event_date st with
    | .error err => .error err
    | .ok (ev, st1) =>
      match generate_day rs es users documents event_date n st1 with
      | .error err => .error err
      | .ok (evs, st2) => .ok (ev :: evs, st2)

-- ============================================================
-- Idempotent loader
-- ============================================================

/-- One row of `raw.events`: event identifier (unique key), the serialized
event payload held opaquely, and the batch identifier. -/
structure Row where
  event_id : String
  payload : Event
  batch_id : String
deriving DecidableEq

/-- The semantics of `INSERT ... ON CONFLICT (event_id) DO NOTHING` executed
by `execute_values`: rows are attempted in order against the growing table;
a row whose key is already present (including one inserted earlier in the
same statement) is skipped silently. Returns the new table and the command
row count, which for this statement form counts exactly the inserted rows. -/
def rawInsert : List Row → List Row → List Row × ℕ
  | db, [] => (db, 0)
  | db, v :: vs =>
    if v.event_id ∈ db.map Row.event_id then rawInsert db vs
    else
      let r := rawInsert (db ++ [v]) vs
      (r.1, r.2 + 1)

/-- The page splitter of psycopg2 `execute_values` with its default
`page_size=100`: the argument list is consumed in successive pages of at
most 100 rows. Structural recursion on a fuel equal to the list length,
which always suffices because every step consumes at least one element; the
fuel-exhausted branch is unreachable. -/
def pages100Go {α : Type} (fuel : ℕ) (l : List α) : List (List α) :=
  match fuel, l with
  | _, [] => []
  | 0, _ :: _ => []
  | f + 1, x :: xs => (x :: xs).take 100 :: pages100Go f ((x :: xs).drop 100)

def pages100 {α : Type} (l : List α) : List (List α) := pages100Go l.length l

/-- psycopg2 `execute_values(cur, insert_sql, values)` with the default
`page_size=100`: one INSERT ... ON CONFLICT DO NOTHING statement is
executed per page of at most 100 rows, against the growing table.
`cursor.rowcount` afterwards holds only the row count of the last executed
statement — the last page's inserted count — and stays at the fresh
cursor's -1 when the value list is empty and no statement runs at all. -/
def execute_values (db : List Row) (values : List Row) : List Row × Int :=
  (pages100 values).foldl
    (fun acc page =>
      let r := rawInsert acc.1 page
      (r.1, (r.2 : Int)))
    (db, -1)

/-- Outcome of one `load_to_raw` call: the Python return (the cursor's
rowcount, an integer) or the propagated exception, whether the connection
was closed by the time control left the function, and the raw store
contents afterwards. -/
structure LoadOutcome where
  result : Except String Int
  connClosed : Bool
  db : List Row

/-- `load_to_raw`. The function body is straight-line: connect, build the
value tuples, `execute_values` the ON CONFLICT DO NOTHING insert in pages
of 100, read `cur.rowcount` (the last page's count only), commit, close
cursor and connection, return that count. There is no try/finally and no
context manager, so when the bulk write raises (`writeFails`), the
exception propagates before `conn.close()` is reached: the connection is
left open and the transaction is not committed. -/
def load_to_raw (writeFails : Bool) (events : List Event) (batch_id : String)
    (db : List Row) : LoadOutcome :=
  let values := events.map (fun e => Row.mk e.event_id e batch_id)
  if writeFails then
    { result := .error "OperationalError", connClosed := false, db := db }
  else
    let r := execute_values db values
    { result := .ok r.2, connClosed := true, db := r.1 }

-- ============================================================
-- Command-line entry point
-- ============================================================

/-- The observable outcome of `main`: whether it finished without an
exception, how many day iterations ran, the final total it accumulated, and
whether the closing summary block was printed. -/
structure MainResult where
  ok : Bool
  daysProcessed : ℕ
  totalLoaded : Int
  summaryPrinted : Bool
deriving DecidableEq

/-- The `while current <= end` loop of `main`, bounded by `fuel` (a model
artifact only: the error it reports on exhaustion is never reached when
`fuel` covers the date span, and the loop is never entered at all when the
end date precedes the start date). Per iteration: build the batch id (one
uuid entropy element), generate the day's events, then either dry-run print
(indexing `events[0]`, an IndexError when the day is empty) or load them. -/
def mainLoop (rs es : ℕ → ℕ) (users : List User) (documents : List Document)
    (endD : Date) (perDay : ℕ) (dryRun : Bool) (fuel : ℕ) (current : Date)
    (st : GState) (db : List Row) :
    Except String (ℕ × Int × List Row × GState) :=
    if dateLe current endD then
      match fuel with
      | 0 => .error "fuel exhausted"
      | f + 1 =>
        match generate_day rs es users documents (dateToDT current) perDay
            ⟨st.rpos, st.epos + 1, st.sessions⟩ with
        | .error _ => .error "IndexError"
        | .ok (events, st2) =>
          if dryRun then
            match events with
            | [] => .error "IndexError"
            | _ :: _ =>
              match mainLoop rs es users documents endD perDay dryRun f
                  (nextDay current) st2 db with
              | .error s => .error s
              | .ok (days, tot, dbf, stf) => .ok (days + 1, tot, dbf, stf)
          else
            let out := load_to_raw false events
              ("batch_" ++ padNum 4 current.y ++ padNum 2 current.m ++
                padNum 2 current.d ++ "_" ++ (uuidHex (es st.epos)).take 8) db
            match out.result with
            | .error s => .error s
            | .ok cnt =>
              match mainLoop rs es users documents endD perDay dryRun f
                  (nextDay current) st2 out.db with
              | .error s => .error s
              | .ok (days, tot, dbf, stf) => .ok (days + 1, tot + cnt, dbf, stf)
    else .ok (0, 0, db, st)

/-- `main`: construct the generator (seed fixes the seeded stream `rs`; the
pools consume their draws first), then run the day loop from the parsed
start date, then print the summary block unless in dry-run mode. There is
no validation of the date range: when the end date precedes the start date
the loop body never runs and the summary reports a zero total. -/
def mainRun (rs es : ℕ → ℕ) (startD endD : Date) (perDay : ℕ) (dryRun : Bool)
    (db : List Row) (fuel : ℕ) : MainResult :=
  let gu := genUsersFrom rs es 0 NUM_USERS 0 0
  match genDocumentsFrom rs es gu.1 0 NUM_DOCUMENTS gu.2.1 gu.2.2 with
  | .error _ => ⟨false, 0, 0, false⟩
  | .ok (documents, p0, e0) =>
    match mainLoop rs es gu.1 documents endD perDay dryRun fuel startD
        ⟨p0, e0, []⟩ db with
    | .error _ => ⟨false, 0, 0, false⟩
    | .ok (days, tot, _, _) => ⟨true, days, tot, !dryRun⟩

-- ============================================================
-- Concrete streams, states and sample values used by witnesses
-- ============================================================

def streamZero : ℕ → ℕ := fun _ => 0

def entropyA : ℕ → ℕ := fun _ => 0

def entropyB : ℕ → ℕ := fun _ => 2 ^ 127

def st0 : GState := ⟨0, 0, []⟩

def dt0 : PyDatetime := ⟨2024, 1, 1, 0, 0, 0, 0, none⟩

def dtMicroTz : PyDatetime := ⟨2024, 1, 1, 12, 0, 0, 123456, some 60⟩

def userSample : User := ⟨"usr_aaaaaaaaaaaa", "user0@example.com", dt0, "free", "high"⟩

def docSample : Document := ⟨"doc_aaaaaaaaaaaa", "usr_aaaaaaaaaaaa", "Document 0", dt0⟩

def evSample1 : Event := ⟨"evt_a", "user_login", "", "usr_a", "ses_a", [], ⟨"web", "", ""⟩⟩

/-- A batch of `n` events with pairwise distinct event identifiers. -/
def evSeq (n : ℕ) : List Event :=
  (List.range n).map (fun i =>
    { event_id := "e" ++ toString i
      event_type := "user_login"
      event_timestamp := ""
      user_id := "u"
      session_id := "s"
      properties := []
      context := ⟨"web", "", ""⟩ })

-- ============================================================
-- Lemmas about the random draw primitives
-- ============================================================

theorem pyChoiceD_mem {α : Type} (l : List α) (d : α) (v : ℕ) (h : l ≠ []) :
    pyChoiceD l d v ∈ l := by
  have hl : 0 < l.length := List.length_pos.mpr h
  have hi : v % l.length < l.length := Nat.mod_lt _ hl
  simp only [pyChoiceD, List.getD_eq_getElem?_getD, List.getElem?_eq_getElem hi,
    Option.getD_some]
  exact List.getElem_mem hi

theorem weightedPick_mem {α : Type} :
    ∀ (l : List (α × ℕ)) (x : ℕ) (a : α),
      weightedPick l x = some a → a ∈ l.map Prod.fst := by
  intro l
  induction l with
  | nil => intro x a h; simp [weightedPick] at h
  | cons hd tl ih =>
    intro x a h
    obtain ⟨b, w⟩ := hd
    simp only [weightedPick] at h
    split at h
    · cases h; simp
    · simpa using Or.inr (ih _ _ h)

theorem weightedPick_isSome {α : Type} :
    ∀ (l : List (α × ℕ)) (x : ℕ), x < totalWeight l →
      ∃ a, weightedPick l x = some a := by
  intro l
  induction l with
  | nil => intro x h; simp [totalWeight] at h
  | cons hd tl ih =>
    intro x h
    obtain ⟨b, w⟩ := hd
    by_cases hw : x < w
    · exact ⟨b, by simp [weightedPick, hw]⟩
    · have htot : totalWeight ((b, w) :: tl) = w + totalWeight tl := by
        simp [totalWeight]
      obtain ⟨a, ha⟩ := ih (x - w) (by omega)
      exact ⟨a, by simp [weightedPick, hw, ha]⟩

theorem pyChoicesD_mem {α : Type} (l : List (α × ℕ)) (d : α) (v : ℕ)
    (h : 0 < totalWeight l) : pyChoicesD l d v ∈ l.map Prod.fst := by
  have hx : v % totalWeight l < totalWeight l := Nat.mod_lt _ h
  obtain ⟨a, ha⟩ := weightedPick_isSome l _ hx
  rw [pyChoicesD, ha]
  exact weightedPick_mem l _ a ha

theorem hour_draw_lt_24 (v : ℕ) :
    pyChoicesD ((List.range 24).zip HOUR_WEIGHTS) 0 v < 24 := by
  have h := pyChoicesD_mem ((List.range 24).zip HOUR_WEIGHTS) 0 v (by decide)
  have he : ((List.range 24).zip HOUR_WEIGHTS).map Prod.fst = List.range 24 := by
    decide
  rw [he] at h
  exact List.mem_range.mp h

theorem pyRandint_0_59_lt (v : ℕ) : pyRandint 0 59 v < 60 := by
  unfold pyRandint
  omega

-- ============================================================
-- Lemmas about the session dict
-- ============================================================

theorem dictGet_dictSet (l : List (String × String)) (k v : String) :
    dictGet (dictSet l k v) k = some v := by
  induction l with
  | nil => simp [dictSet, dictGet]
  | cons hd tl ih =>
    obtain ⟨k0, v0⟩ := hd
    by_cases h : k0 = k
    · simp [dictSet, dictGet, h]
    · simp [dictSet, dictGet, h, ih]

-- ============================================================
-- The idempotent loader: claim C1
-- ============================================================

/-- C1: the return value of `load_to_raw` is NOT the number of rows newly
inserted across the batch. `execute_values` runs one INSERT per page of 100
rows and `cur.rowcount` holds only the last statement's count: for 101
fresh events with unique identifiers, all 101 rows are newly inserted into
the raw store, yet the call returns 1; a second identical load still
returns 0 (its last page also inserts nothing), and an empty batch returns
the fresh cursor's -1 rather than 0. -/
theorem c1_load_reports_last_page_only :
    (evSeq 101).length = 101 ∧
    ((evSeq 101).map Event.event_id).Nodup ∧
    (load_to_raw false (evSeq 101) "b1" []).db.length = 101 ∧
    (load_to_raw false (evSeq 101) "b1" []).result = .ok 1 ∧
    (load_to_raw false (evSeq 101) "b2"
      ((load_to_raw false (evSeq 101) "b1" []).db)).result = .ok 0 ∧
    (load_to_raw false [] "b3" []).result = .ok (-1) :=
  ⟨by decide, by decide, by decide, rfl, rfl, rfl⟩

/-- C8: the source closes the cursor and connection only on the straight-line
success path; there is no scoped acquisition (no try/finally, no context
manager), so when the bulk write raises, the exception propagates with the
connection still open. The claim that the connection is released on every
exit path is contradicted by the failing bulk write. -/
theorem c8_connection_not_closed_on_write_failure :
    (load_to_raw true [evSample1] "batch_x" []).connClosed = false ∧
    (load_to_raw true [evSample1] "batch_x" []).result = .error "OperationalError" ∧
    (load_to_raw false [evSample1] "batch_x" []).connClosed = true :=
  ⟨rfl, rfl, rfl⟩

-- ============================================================
-- Session tracker and event synthesizer lemmas
-- ============================================================

/-- The property dispatch succeeds whenever the document pool is nonempty,
and every document or feature reference it attaches resolves in the
respective pool. -/
theorem event_properties_spec (rs : ℕ → ℕ) (documents : List Document)
    (event_type : String) (p : ℕ) (hd : documents ≠ []) :
    ∃ props pend, event_properties rs documents event_type p = .ok (props, pend) ∧
      (∀ v, ("document_id", PropVal.str v) ∈ props →
        v ∈ documents.map Document.document_id) ∧
      (∀ v, ("feature_id", PropVal.str v) ∈ props →
        v ∈ FEATURES.map Feature.id) := by
  cases documents with
  | nil => exact absurd rfl hd
  | cons d0 ds =>
    have hdocmem : pyChoiceD (d0 :: ds) d0 (rs p) ∈ d0 :: ds :=
      pyChoiceD_mem _ _ _ (by simp)
    have hfeatmem : pyChoiceD FEATURES featDefault (rs p) ∈ FEATURES :=
      pyChoiceD_mem _ _ _ (by decide)
    simp only [event_properties]
    split_ifs with h1 h2 h3 h4 h5
    · refine ⟨_, _, rfl, ?_, ?_⟩
      · intro v hv
        simp only [List.mem_cons, List.not_mem_nil, or_false, Prod.mk.injEq,
          String.reduceEq, false_and, PropVal.str.injEq, true_and, or_false,
          reduceCtorEq, and_false] at hv
        exact hv ▸ List.mem_map_of_mem Document.document_id hdocmem
      · intro v hv
        simp only [List.mem_cons, List.not_mem_nil, or_false, Prod.mk.injEq,
          String.reduceEq, false_and, reduceCtorEq, and_false, or_self] at hv
    · refine ⟨_, _, rfl, ?_, ?_⟩
      · intro v hv
        simp only [List.mem_cons, List.not_mem_nil, or_false, Prod.mk.injEq,
          PropVal.str.injEq, true_and] at hv
        exact hv ▸ List.mem_map_of_mem Document.document_id hdocmem
      · intro v hv
        simp only [List.mem_cons, List.not_mem_nil, or_false, Prod.mk.injEq,
          String.reduceEq, false_and] at hv
    · refine ⟨_, _, rfl, ?_, ?_⟩
      · intro v hv
        simp only [List.mem_cons, List.not_mem_nil, or_false, Prod.mk.injEq,
          String.reduceEq, false_and, reduceCtorEq, and_false, or_self] at hv
      · intro v hv
        simp only [List.mem_cons, List.not_mem_nil, or_false, Prod.mk.injEq,
          String.reduceEq, false_and, PropVal.str.injEq, true_and, or_false,
          reduceCtorEq, and_false] at hv
        exact hv ▸ List.mem_map_of_mem Feature.id hfeatmem
    · refine ⟨_, _, rfl, ?_, ?_⟩
      · intro v hv
        simp only [List.mem_cons, List.not_mem_nil, or_false, Prod.mk.injEq,
          String.reduceEq, false_and, or_self] at hv
      · intro v hv
        simp only [List.mem_cons, List.not_mem_nil, or_false, Prod.mk.injEq,
          String.reduceEq, false_and, or_self] at hv
    · refine ⟨_, _, rfl, ?_, ?_⟩
      · intro v hv
        simp only [List.mem_cons, List.not_mem_nil, or_false, Prod.mk.injEq,
          String.reduceEq, false_and] at hv
      · intro v hv
        simp only [List.mem_cons, List.not_mem_nil, or_false, Prod.mk.injEq,
          String.reduceEq, false_and] at hv
    · exact ⟨[], p, rfl, by simp, by simp⟩

/-- Master characterisation of a successful `generate_event` call: it
succeeds on nonempty pools, the drawn user is a pool user, the timestamp is
the supplied day with only hour/minute/second replaced (hour below 24,
minute and second uniform in [0, 59]), the session identifier and the final
session map are those of exactly one `get_session_id` evaluation at the
intermediate state (six seeded draws and one uuid consumed by then), and
every document/feature reference resolves in the pools. -/
theorem generate_event_spec (rs es : ℕ → ℕ) (users : List User)
    (documents : List Document) (ed : PyDatetime) (st : GState)
    (hu : users ≠ []) (hd : documents ≠ []) :
    ∃ ev st2, generate_event rs es users documents ed st = .ok (ev, st2) ∧
      ev.user_id ∈ users.map User.user_id ∧
      (∃ h mi s, h < 24 ∧ mi < 60 ∧ s < 60 ∧
        ev.event_timestamp = pyIsoformat (pyReplace ed h mi s) ++ "Z") ∧
      ev.session_id =
        (get_session_id rs es ev.user_id ⟨st.rpos + 6, st.epos + 1, st.sessions⟩).1 ∧
      st2.sessions =
        (get_session_id rs es ev.user_id ⟨st.rpos + 6, st.epos + 1, st.sessions⟩).2.sessions ∧
      (∀ v, ("document_id", PropVal.str v) ∈ ev.properties →
        v ∈ documents.map Document.document_id) ∧
      (∀ v, ("feature_id", PropVal.str v) ∈ ev.properties →
        v ∈ FEATURES.map Feature.id) := by
  cases users with
  | nil => exact absurd rfl hu
  | cons u0 us =>
    set user := pyChoiceD (u0 :: us) u0 (rs (st.rpos + 1)) with huser
    set sres := get_session_id rs es user.user_id
      ⟨st.rpos + 6, st.epos + 1, st.sessions⟩ with hsres
    obtain ⟨props, pend, hp, hdoc, hfeat⟩ :=
      event_properties_spec rs documents
        (pyChoicesD EVENT_WEIGHTS "document_edited" (rs st.rpos))
        (sres.2.rpos + 2) hd
    have hgen : generate_event rs es (u0 :: us) documents ed st = .ok
        ({ event_id := "evt_" ++ uuidHex (es st.epos)
           event_type := pyChoicesD EVENT_WEIGHTS "document_edited" (rs st.rpos)
           event_timestamp := pyIsoformat (pyReplace ed
             (pyChoicesD ((List.range 24).zip HOUR_WEIGHTS) 0 (rs (st.rpos + 3)))
             (pyRandint 0 59 (rs (st.rpos + 4)))
             (pyRandint 0 59 (rs (st.rpos + 5)))) ++ "Z"
           user_id := user.user_id
           session_id := sres.1
           properties := props
           context :=
             { platform := pyChoicesD (PLATFORMS.zip PLATFORM_WEIGHTS) "web" (rs (st.rpos + 2))
               ip_address := "192.168." ++ toString (pyRandint 1 255 (rs sres.2.rpos)) ++
                 "." ++ toString (pyRandint 1 255 (rs (sres.2.rpos + 1)))
               user_agent := "Mozilla/5.0 (" ++
                 pyChoicesD (PLATFORMS.zip PLATFORM_WEIGHTS) "web" (rs (st.rpos + 2)) ++ ")" } },
         (⟨pend, sres.2.epos, sres.2.sessions⟩ : GState)) := by
      simp only [generate_event]
      rw [← huser, ← hsres, hp]
    refine ⟨_, _, hgen, ?_, ?_, ?_, ?_, hdoc, hfeat⟩
    · exact List.mem_map_of_mem User.user_id (pyChoiceD_mem _ _ _ (by simp))
    · exact ⟨_, _, _, hour_draw_lt_24 _, pyRandint_0_59_lt _, pyRandint_0_59_lt _, rfl⟩
    · rfl
    · rfl

/-- C4: `_get_session_id` assigns and records a fresh session identifier
exactly when the user has no current session or the uniform renewal draw
falls below 0.10, and otherwise returns the recorded identifier with the
session map unchanged; and `generate_event` evaluates it exactly once for
the drawn user, at the state reached after its six prior seeded draws and
one uuid draw — the emitted session identifier and the final session map
are those of that single evaluation. -/
theorem c4_session_policy (rs es : ℕ → ℕ) :
    (∀ (uid : String) (st : GState),
      (dictGet st.sessions uid = none →
        (get_session_id rs es uid st).1 = freshSession es st.epos ∧
        dictGet (get_session_id rs es uid st).2.sessions uid =
          some (freshSession es st.epos)) ∧
      (∀ old, dictGet st.sessions uid = some old →
        (pyRandom (rs st.rpos) < (1 : ℚ) / 10 →
          (get_session_id rs es uid st).1 = freshSession es st.epos ∧
          dictGet (get_session_id rs es uid st).2.sessions uid =
            some (freshSession es st.epos)) ∧
        (¬ pyRandom (rs st.rpos) < (1 : ℚ) / 10 →
          (get_session_id rs es uid st).1 = old ∧
          (get_session_id rs es uid st).2.sessions = st.sessions))) ∧
    (∀ (users : List User) (documents : List Document) (ed : PyDatetime)
        (st : GState), users ≠ [] → documents ≠ [] →
      ∃ ev st2, generate_event rs es users documents ed st = .ok (ev, st2) ∧
        ev.session_id =
          (get_session_id rs es ev.user_id ⟨st.rpos + 6, st.epos + 1, st.sessions⟩).1 ∧
        st2.sessions =
          (get_session_id rs es ev.user_id ⟨st.rpos + 6, st.epos + 1, st.sessions⟩).2.sessions) := by
  constructor
  · intro uid st
    constructor
    · intro h
      simp [get_session_id, h, dictGet_dictSet]
    · intro old h
      constructor
      · intro hlt
        simp only [get_session_id, h]
        rw [if_pos hlt]
        exact ⟨rfl, dictGet_dictSet _ _ _⟩
      · intro hge
        simp only [get_session_id, h]
        rw [if_neg hge]
        exact ⟨rfl, rfl⟩
  · intro users documents ed st hu hd
    obtain ⟨ev, st2, heq, _, _, hsid, hsess, _, _⟩ :=
      generate_event_spec rs es users documents ed st hu hd
    exact ⟨ev, st2, heq, hsid, hsess⟩

/-- Witness for C4: fresh-user branch of the session policy, and the
single-evaluation property of one concrete generated event. -/
theorem c4_session_policy_witness :
    ((get_session_id streamZero entropyA "usr_x" st0).1 =
        freshSession entropyA st0.epos ∧
      dictGet (get_session_id streamZero entropyA "usr_x" st0).2.sessions "usr_x" =
        some (freshSession entropyA st0.epos)) ∧
    (∃ ev st2,
      generate_event streamZero entropyA [userSample] [docSample] dt0 st0 =
        .ok (ev, st2) ∧
      ev.session_id =
        (get_session_id streamZero entropyA ev.user_id
          ⟨st0.rpos + 6, st0.epos + 1, st0.sessions⟩).1 ∧
      st2.sessions =
        (get_session_id streamZero entropyA ev.user_id
          ⟨st0.rpos + 6, st0.epos + 1, st0.sessions⟩).2.sessions) := by
  constructor
  · exact ((c4_session_policy streamZero entropyA).1 "usr_x" st0).1 rfl
  · exact (c4_session_policy streamZero entropyA).2 [userSample] [docSample]
      dt0 st0 (by simp) (by simp)

/-- C10: for a user with no recorded session the fresh identifier is
assigned without consuming a seeded uniform draw (the Python `or`
short-circuits), while for a user with a recorded session exactly one
uniform draw is consumed — the stream position after the call depends on
whether the user had a session. -/
theorem c10_session_draw_shortcircuit (rs es : ℕ → ℕ) (uid : String)
    (st : GState) :
    (dictGet st.sessions uid = none →
      (get_session_id rs es uid st).2.rpos = st.rpos ∧
      (get_session_id rs es uid st).1 = freshSession es st.epos ∧
      (get_session_id rs es uid st).2.epos = st.epos + 1) ∧
    (∀ old, dictGet st.sessions uid = some old →
      (get_session_id rs es uid st).2.rpos = st.rpos + 1) := by
  constructor
  · intro h
    simp [get_session_id, h]
  · intro old h
    simp only [get_session_id, h]
    split <;> rfl

/-- Witness for C10: a user absent from the session map consumes no seeded
draw; a user present in the map consumes exactly one. -/
theorem c10_session_draw_shortcircuit_witness :
    (get_session_id streamZero entropyA "usr_x" st0).2.rpos = st0.rpos ∧
    (get_session_id streamZero entropyA "usr_x"
      ⟨5, 0, [("usr_x", "ses_old")]⟩).2.rpos = 5 + 1 := by
  constructor
  · exact ((c10_session_draw_shortcircuit streamZero entropyA "usr_x" st0).1 rfl).1
  · exact (c10_session_draw_shortcircuit streamZero entropyA "usr_x"
      ⟨5, 0, [("usr_x", "ses_old")]⟩).2 "ses_old" rfl

/-- Day-sequence characterisation: with nonempty pools, `generate_day`
succeeds, yields exactly `n` events, and every event's timestamp is the
supplied day with only the time-of-day fields replaced. -/
theorem generate_day_spec (rs es : ℕ → ℕ) (users : List User)
    (documents : List Document) (ed : PyDatetime) (hu : users ≠ [])
    (hd : documents ≠ []) :
    ∀ (n : ℕ) (st : GState), ∃ evs st2,
      generate_day rs es users documents ed n st = .ok (evs, st2) ∧
      evs.length = n ∧
      ∀ e ∈ evs, ∃ h mi s, h < 24 ∧ mi < 60 ∧ s < 60 ∧
        e.event_timestamp = pyIsoformat (pyReplace ed h mi s) ++ "Z" := by
  intro n
  induction n with
  | zero => intro st; exact ⟨[], st, rfl, rfl, by simp⟩
  | succ n ih =>
    intro st
    obtain ⟨ev, st1, heq, _, hts, _, _, _, _⟩ :=
      generate_event_spec rs es users documents ed st hu hd
    obtain ⟨evs, st2, hdq, hlen, hall⟩ := ih st1
    refine ⟨ev :: evs, st2, ?_, by simp [hlen], ?_⟩
    · simp only [generate_day, heq, hdq]
    · intro e he
      rcases List.mem_cons.mp he with rfl | hm
      · exact hts
      · exact hall e hm

/-- C5: for every calendar day and count, `generate_day` produces exactly
`n` events, each with a timestamp equal to the supplied day with only the
drawn hour (below 24), minute and second (uniform in [0, 59]) filled in —
the producer never moves to a different calendar date. -/
theorem c5_day_boundary (rs es : ℕ → ℕ) (users : List User)
    (documents : List Document) (ed : PyDatetime) (n : ℕ) (st : GState)
    (hu : users ≠ []) (hd : documents ≠ []) :
    ∃ evs st2, generate_day rs es users documents ed n st = .ok (evs, st2) ∧
      evs.length = n ∧
      ∀ e ∈ evs, ∃ h mi s, h < 24 ∧ mi < 60 ∧ s < 60 ∧
        e.event_timestamp = pyIsoformat
          ⟨ed.year, ed.month, ed.day, h, mi, s, ed.microsecond,
            ed.tzOffsetMinutes⟩ ++ "Z" :=
  generate_day_spec rs es users documents ed hu hd n st

/-- Witness for C5 at a concrete input: two events for 2024-01-01. -/
theorem c5_day_boundary_witness :
    (([userSample] : List User) ≠ [] ∧ ([docSample] : List Document) ≠ []) ∧
    (∃ evs st2, generate_day streamZero entropyA [userSample] [docSample] dt0
        2 st0 = .ok (evs, st2) ∧
      evs.length = 2 ∧
      ∀ e ∈ evs, ∃ h mi s, h < 24 ∧ mi < 60 ∧ s < 60 ∧
        e.event_timestamp = pyIsoformat
          ⟨dt0.year, dt0.month, dt0.day, h, mi, s, dt0.microsecond,
            dt0.tzOffsetMinutes⟩ ++ "Z") :=
  ⟨⟨by simp, by simp⟩,
    c5_day_boundary streamZero entropyA [userSample] [docSample] dt0 2 st0
      (by simp) (by simp)⟩

/-- C9: the emitted timestamp string is the ISO rendering of the supplied
datetime with only hour, minute and second replaced: the microsecond field
and any timezone offset of the supplied datetime are carried through
unchanged into the rendered string, and the character Z is appended
unconditionally. -/
theorem c9_timestamp_passthrough (rs es : ℕ → ℕ) (users : List User)
    (documents : List Document) (ed : PyDatetime) (st : GState)
    (hu : users ≠ []) (hd : documents ≠ []) :
    ∃ ev st2 h mi s,
      generate_event rs es users documents ed st = .ok (ev, st2) ∧
      h < 24 ∧ mi < 60 ∧ s < 60 ∧
      ev.event_timestamp = pyIsoformat
        ⟨ed.year, ed.month, ed.day, h, mi, s, ed.microsecond,
          ed.tzOffsetMinutes⟩ ++ "Z" := by
  obtain ⟨ev, st2, heq, _, ⟨h, mi, s, hh, hmi, hs, hts⟩, _, _, _, _⟩ :=
    generate_event_spec rs es users documents ed st hu hd
  exact ⟨ev, st2, h, mi, s, heq, hh, hmi, hs, hts⟩

/-- Witness for C9 at a concrete input: a supplied datetime carrying
microseconds 123456 and a +01:00 offset. -/
theorem c9_timestamp_passthrough_witness :
    (([userSample] : List User) ≠ [] ∧ ([docSample] : List Document) ≠ []) ∧
    (∃ ev st2 h mi s,
      generate_event streamZero entropyA [userSample] [docSample] dtMicroTz st0 =
        .ok (ev, st2) ∧
      h < 24 ∧ mi < 60 ∧ s < 60 ∧
      ev.event_timestamp = pyIsoformat
        ⟨dtMicroTz.year, dtMicroTz.month, dtMicroTz.day, h, mi, s,
          dtMicroTz.microsecond, dtMicroTz.tzOffsetMinutes⟩ ++ "Z") :=
  ⟨⟨by simp, by simp⟩,
    c9_timestamp_passthrough streamZero entropyA [userSample] [docSample]
      dtMicroTz st0 (by simp) (by simp)⟩

/-- Every document generated by the `_generate_documents` loop has an owner
drawn from the user pool. -/
theorem genDocumentsFrom_owner (rs es : ℕ → ℕ) (users : List User) :
    ∀ (n i p e : ℕ) (docs : List Document) (pf ef : ℕ),
      genDocumentsFrom rs es users i n p e = .ok (docs, pf, ef) →
      ∀ d ∈ docs, d.owner_user_id ∈ users.map User.user_id := by
  intro n
  induction n with
  | zero =>
    intro i p e docs pf ef h d hd
    simp only [genDocumentsFrom, Except.ok.injEq, Prod.mk.injEq] at h
    obtain ⟨h1, -, -⟩ := h
    subst h1
    simp at hd
  | succ n ih =>
    intro i p e docs pf ef h d hd
    cases users with
    | nil => simp [genDocumentsFrom] at h
    | cons u0 us =>
      simp only [genDocumentsFrom] at h
      cases hrec : genDocumentsFrom rs es (u0 :: us) (i + 1) n (p + 2) (e + 1) with
      | error s => rw [hrec] at h; cases h
      | ok triple =>
        obtain ⟨rest, pf2, ef2⟩ := triple
        rw [hrec] at h
        injection h with h'
        have hdocs : docs = _ :: rest := congrArg Prod.fst h'.symm
        rw [hdocs] at hd
        rcases List.mem_cons.mp hd with rfl | hm
        · exact List.mem_map_of_mem User.user_id (pyChoiceD_mem _ _ _ (by simp))
        · exact ih (i + 1) (p + 2) (e + 1) rest pf2 ef2 hrec d hm

/-- C3: every generated event's user is a pool user; any document_id
property resolves in the document pool; any feature_id property resolves in
the fixed feature catalog; and every generated document's owner is a pool
user. -/
theorem c3_referential_integrity (rs es : ℕ → ℕ) (users : List User)
    (documents : List Document) (ed : PyDatetime) (st : GState)
    (hu : users ≠ []) (hd : documents ≠ []) :
    (∃ ev st2, generate_event rs es users documents ed st = .ok (ev, st2) ∧
      ev.user_id ∈ users.map User.user_id ∧
      (∀ v, ("document_id", PropVal.str v) ∈ ev.properties →
        v ∈ documents.map Document.document_id) ∧
      (∀ v, ("feature_id", PropVal.str v) ∈ ev.properties →
        v ∈ FEATURES.map Feature.id)) ∧
    (∀ (n i p e : ℕ) (docs : List Document) (pf ef : ℕ),
      genDocumentsFrom rs es users i n p e = .ok (docs, pf, ef) →
      ∀ d ∈ docs, d.owner_user_id ∈ users.map User.user_id) := by
  constructor
  · obtain ⟨ev, st2, heq, humem, _, _, _, hdocp, hfeatp⟩ :=
      generate_event_spec rs es users documents ed st hu hd
    exact ⟨ev, st2, heq, humem, hdocp, hfeatp⟩
  · exact genDocumentsFrom_owner rs es users

/-- Witness for C3 at a concrete input: one generated event and one
generated document batch over a singleton user pool. -/
theorem c3_referential_integrity_witness :
    (([userSample] : List User) ≠ [] ∧ ([docSample] : List Document) ≠ []) ∧
    ((∃ ev st2, generate_event streamZero entropyA [userSample] [docSample]
        dt0 st0 = .ok (ev, st2) ∧
      ev.user_id ∈ [userSample].map User.user_id ∧
      (∀ v, ("document_id", PropVal.str v) ∈ ev.properties →
        v ∈ [docSample].map Document.document_id) ∧
      (∀ v, ("feature_id", PropVal.str v) ∈ ev.properties →
        v ∈ FEATURES.map Feature.id)) ∧
    (∀ (n i p e : ℕ) (docs : List Document) (pf ef : ℕ),
      genDocumentsFrom streamZero entropyA [userSample] i n p e = .ok (docs, pf, ef) →
      ∀ d ∈ docs, d.owner_user_id ∈ [userSample].map User.user_id)) :=
  ⟨⟨by simp, by simp⟩,
    c3_referential_integrity streamZero entropyA [userSample] [docSample]
      dt0 st0 (by simp) (by simp)⟩

/-- C6 counterexample: with an empty user pool, `generate_event` is not
guarded before sampling — it raises an IndexError from inside the sampling
sequence, after the event-type draw has already advanced the shared random
stream (partial work), contradicting reported-immediately-with-no-partial-
work. -/
theorem c6_no_guard_counterexample :
    generate_event streamZero entropyA [] [docSample] dt0 st0 =
      .error ("IndexError", ⟨st0.rpos + 1, st0.epos, st0.sessions⟩) ∧
    st0.rpos + 1 ≠ st0.rpos :=
  ⟨rfl, by decide⟩

/-- C6 amended: there is no emptiness guard; with an empty user pool every
`generate_event` call raises an IndexError from the uniform user draw, and
by then the event-type draw has already consumed one element of the shared
random stream (the session map and entropy position are untouched at that
point). -/
theorem c6_empty_pool_indexerror (rs es : ℕ → ℕ) (documents : List Document)
    (ed : PyDatetime) (st : GState) :
    generate_event rs es [] documents ed st =
      .error ("IndexError", ⟨st.rpos + 1, st.epos, st.sessions⟩) := rfl

/-- C2: the identifier fields are not determined by the seed. Two runs over
the same seeded stream (same seed, same call sequence) but different
operating-system entropy produce a different first pool user identifier and
a different generated event identifier, because `uuid.uuid4()` does not
read the seeded stream. This contradicts byte-identical sequences and the
code's own reproducibility documentation. -/
theorem c2_identifiers_not_seed_determined :
    ((genUsersFrom streamZero entropyA 0 NUM_USERS 0 0).1.head?.map User.user_id ≠
      (genUsersFrom streamZero entropyB 0 NUM_USERS 0 0).1.head?.map User.user_id) ∧
    ((generate_event streamZero entropyA [userSample] [docSample] dt0 st0).toOption.map
        (fun r => r.1.event_id) ≠
      (generate_event streamZero entropyB [userSample] [docSample] dt0 st0).toOption.map
        (fun r => r.1.event_id)) := by
  constructor
  · decide
  · decide

/-- The user-pool loop produces exactly as many users as requested. -/
theorem genUsersFrom_length (rs es : ℕ → ℕ) :
    ∀ (n i p e : ℕ), ((genUsersFrom rs es i n p e).1).length = n := by
  intro n
  induction n with
  | zero => intro i p e; rfl
  | succ n ih =>
    intro i p e
    simp only [genUsersFrom]
    simp [ih]

/-- The document-pool loop always succeeds over a nonempty user pool. -/
theorem genDocumentsFrom_ok (rs es : ℕ → ℕ) (users : List User)
    (hne : users ≠ []) :
    ∀ (n i p e : ℕ), ∃ docs pf ef,
      genDocumentsFrom rs es users i n p e = .ok (docs, pf, ef) := by
  cases users with
  | nil => exact absurd rfl hne
  | cons u0 us =>
    intro n
    induction n with
    | zero => intro i p e; exact ⟨[], p, e, rfl⟩
    | succ n ih =>
      intro i p e
      obtain ⟨docs, pf, ef, h⟩ := ih (i + 1) (p + 2) (e + 1)
      exact ⟨_, _, _, by simp only [genDocumentsFrom, h]; rfl⟩

/-- The day loop returns immediately, without error and with zero totals,
whenever the loop condition fails on entry. -/
theorem mainLoop_not_le (rs es : ℕ → ℕ) (users : List User)
    (documents : List Document) (endD : Date) (perDay : ℕ) (dryRun : Bool)
    (fuel : ℕ) (current : Date) (st : GState) (db : List Row)
    (h : dateLe current endD = false) :
    mainLoop rs es users documents endD perDay dryRun fuel current st db =
      .ok (0, 0, db, st) := by
  unfold mainLoop
  simp [h]

/-- C7: with an end date preceding the start date, `main` performs no date
validation: the day loop body never runs, no error is reported, and the
run finishes with the success summary showing a zero total — it does not
report a fatal configuration error. -/
theorem c7_end_before_start_reports_success (rs es : ℕ → ℕ) (perDay : ℕ)
    (db : List Row) (fuel : ℕ) :
    mainRun rs es ⟨2024, 1, 31⟩ ⟨2024, 1, 1⟩ perDay false db fuel =
      { ok := true, daysProcessed := 0, totalLoaded := 0,
        summaryPrinted := true } := by
  have hne : (genUsersFrom rs es 0 NUM_USERS 0 0).1 ≠ [] := by
    have hlen := genUsersFrom_length rs es NUM_USERS 0 0 0
    intro hcon
    rw [hcon] at hlen
    simp [NUM_USERS] at hlen
  obtain ⟨docs, pf, ef, h⟩ := genDocumentsFrom_ok rs es _ hne NUM_DOCUMENTS 0
    (genUsersFrom rs es 0 NUM_USERS 0 0).2.1
    (genUsersFrom rs es 0 NUM_USERS 0 0).2.2
  unfold mainRun
  simp only [h]
  rw [mainLoop_not_le rs es _ docs ⟨2024, 1, 1⟩ perDay false fuel
    ⟨2024, 1, 31⟩ ⟨pf, ef, []⟩ db (by decide)]
  rfl

end CloudDocs
